import Mathlib

/-!
Lock core (`src/core.js`): a shallow embedding.

`core.js` defines the class `Base`: its constructor validates its arguments,
allocates an instance id, sets the lock up and registers the observer of the
`"render"` channel; `runHook` calls an optional function of the host-supplied
engine.  The modules `core.js` imports (`store/index`, `ui/box`, `core/actions`,
`core/index`, `field/index`, `utils/id_utils`, `sync`, `connection/database/index`)
are not part of the sources at hand: their functions appear below as parameters
(`Collaborators`, `Actions`), as recorded calls (`Effect`, `Dispatch`), or, where
the specification fixes their behaviour, as definitions marked as modelled from
the specification.

Exceptions are explicit: a function of the host (the engine's screen resolver,
a hook, a screen handler) returns `Except Err _`.
-/

set_option autoImplicit false

namespace Lock

/-! ## JavaScript values -/

/-- JavaScript values, as far as `core.js` inspects them: `typeof`, truthiness and
strict equality with a string literal.  Functions, objects and arrays carry a
label only. -/
inductive JSValue where
  | undefined
  | null
  | boolean (b : Bool)
  | number (n : Int)
  | string (s : String)
  | function (label : String)
  | object (label : String)
  | array (label : String)
  deriving DecidableEq, Repr

/-- The message of a thrown `Error`. -/
abbrev Err := String

/-- Instance identifiers, the values of `idu.incremental()`. -/
abbrev Id := Nat

/-- The `typeof` operator.  `typeof null` and `typeof []` are `"object"`. -/
def typeof : JSValue → String
  | .undefined => "undefined"
  | .null => "object"
  | .boolean _ => "boolean"
  | .number _ => "number"
  | .string _ => "string"
  | .function _ => "function"
  | .object _ => "object"
  | .array _ => "object"

/-- Truthiness (`ToBoolean`): `undefined`, `null`, `false`, `0` and `""` are falsy. -/
def truthy : JSValue → Bool
  | .undefined => false
  | .null => false
  | .boolean b => b
  | .number n => n != 0
  | .string s => s != ""
  | .function _ => true
  | .object _ => true
  | .array _ => true

/-- The operator `a && b`. -/
def jsAnd (a b : JSValue) : JSValue := if truthy a then b else a

/-- The operator `a || b`. -/
def jsOr (a b : JSValue) : JSValue := if truthy a then a else b

/-- A default parameter value `x = d`: the default is taken when the argument is
`undefined`, which is also what an omitted argument is. -/
def withDefault (x d : JSValue) : JSValue :=
  match x with
  | .undefined => d
  | v => v

/-! ## Screens, engine, instance -/

/-- What `screen.backHandler(m)` or `screen.submitHandler(m)` returns: a function
`h(id, ...args)`, or a value that is not a function (`undefined` when the screen
has no handler). -/
inductive HandlerValue where
  | fn (h : Id → List JSValue → Except Err JSValue)
  | other (v : JSValue)

/-- Parameters of a translation, the object passed to `l.ui.t`. -/
abbrev Params := List (String × JSValue)

/-- A screen descriptor, the result of `engine.render(m)`.  `M` is the type of
state trees. -/
structure Screen (M : Type) where
  name : String
  render : JSValue
  renderAuxiliaryPane : M → JSValue
  renderTabs : M → JSValue
  renderTerms : M → (String → Params → JSValue) → JSValue
  backHandler : M → HandlerValue
  submitHandler : M → HandlerValue

/-- A property `engine[str]` of the engine: a function, called with the state
tree read from the store (absent when the store has none) and the arguments, or
a value that is not a function (`undefined` when the engine has no such
property). -/
inductive EngineProperty (M : Type) where
  | fn (f : Option M → List JSValue → Except Err JSValue)
  | other (v : JSValue)

/-- The host-supplied engine, an object: its screen resolver `render`, and its
properties addressed by name. -/
structure Engine (M : Type) where
  render : M → Except Err (Screen M)
  property : String → EngineProperty M

/-- The fields of a `Base` instance: `this.id`, `this.engine`, and
`this.oldScreenName`, which is `undefined` (`none`) until the first render. -/
structure Instance (M : Type) where
  id : Id
  engine : Engine M
  oldScreenName : Option String

/-! ## The world the constructor acts on -/

/-- A recorded call of an action of `core/actions` or of `sync`. -/
inductive Call where
  | go (id : Id)
  | setupLock (id : Id) (clientID domain options logInCallback : JSValue)
  deriving DecidableEq, Repr

/-- The state outside an instance: the counter behind `idu.incremental`, the
store of state trees by instance id, the registered observers (channel and id),
and the calls made so far. -/
structure World (M : Type) where
  counter : Nat
  store : List (Id × M)
  observers : List (String × Id)
  calls : List Call

/-- The actions the constructor calls, which are not among the sources: each
maps the world to a new world and may throw.  The last two arguments of
`setupLock`, the bound `runHook` and `emit` of the instance, are left out. -/
structure Actions (M : Type) where
  go : Id → World M → World M × Option Err
  setupLock : Id → JSValue → JSValue → JSValue → JSValue → World M → World M × Option Err

/-- Modelled from the spec: `idu.incremental` (`utils/id_utils`, not among the
sources), the identity allocator, which issues a fresh identifier per call. -/
def incremental {M : Type} (w : World M) : Id × World M :=
  (w.counter, { w with counter := w.counter + 1 })

/-- Modelled from the spec: `observe(channel, id, callback)` (`store/index`, not
among the sources) registers the callback for the pair of channel and id.  The
callback of an instance is `renderObserver` below. -/
def observe {M : Type} (channel : String) (id : Id) (w : World M) : World M :=
  { w with observers := w.observers ++ [(channel, id)] }

/-- Modelled from the spec: `read(getEntity, "lock", id)` (`store/index`, not
among the sources), the state tree stored for `id` at the time of the call. -/
def read {M : Type} (w : World M) (id : Id) : Option M :=
  (w.store.find? (fun e => e.1 == id)).map (fun e => e.2)

/-- Modelled from the spec: `updateLock(id, f)` (`core/actions`, not among the
sources) replaces the tree stored for `id` by `f` of it. -/
def updateLock {M : Type} (w : World M) (id : Id) (f : M → M) : World M :=
  { w with store := w.store.map (fun e => if e.1 == id then (e.1, f e.2) else e) }

/-! ## The constructor -/

/-- The four checks at the head of the constructor (lines 22 to 34), in order:
the message of the error thrown, or `none` when all pass. -/
def validate (clientID domain options logInCallback : JSValue) : Option Err :=
  if typeof clientID != "string" then
    some "A `clientID` string must be provided as first argument."
  else if typeof domain != "string" then
    some "A `domain` string must be provided as second argument."
  else if typeof options != "object" then
    some "When provided, the third argument must be an `options` object."
  else if typeof logInCallback != "function" then
    some "When provided, the fourth argument must be a function."
  else none

/-- The constructor of `Base`, up to the registration of the render observer
(whose body is `renderObserver`).  It returns the world after the call and
either the error thrown or the new instance. -/
def Base.constructor {M : Type} (A : Actions M) (w : World M)
    (clientID domain options logInCallback : JSValue) (engine : Engine M) :
    World M × Except Err (Instance M) :=
  let options := withDefault options (.object "\x7b\x7d")
  let logInCallback := withDefault logInCallback (.function "() => \x7b\x7d")
  match validate clientID domain options logInCallback with
  | some err => (w, .error err)
  | none =>
    let (id, w1) := incremental w
    let self : Instance M := { id := id, engine := engine, oldScreenName := none }
    match A.go id w1 with
    | (w2, some err) => (w2, .error err)
    | (w2, none) =>
      match A.setupLock id clientID domain options logInCallback w2 with
      | (w3, some err) => (w3, .error err)
      | (w3, none) => (observe "render" id w3, .ok self)

/-! ## The render observer -/

/-- The functions of `core/index` (`l`), of `connection/database/index`
(`termsAccepted`) and the method `getIn` of a state tree that the render
observer reads a snapshot with.  None is among the sources; each is a parameter,
a function of the snapshot without effect. -/
structure Collaborators (M : Type) where
  id : M → Id
  rendering : M → JSValue
  globalError : M → JSValue
  globalSuccess : M → JSValue
  submitting : M → JSValue
  ui_avatar : M → JSValue
  ui_t : M → List String → Params → JSValue
  ui_autofocus : M → JSValue
  ui_closable : M → JSValue
  ui_mobile : M → JSValue
  ui_appendContainer : M → JSValue
  ui_logo : M → JSValue
  ui_primaryColor : M → JSValue
  ui_containerID : M → JSValue
  getIn : M → List String → JSValue
  termsAccepted : M → JSValue

/-- A call of an action of `core/actions` made by a handler of the property bag. -/
inductive Dispatch where
  | closeLock (id : Id) (args : List JSValue)
  deriving DecidableEq, Repr

/-- The entry `backHandler` or `submitHandler` of the property bag: a function of
the argument list, or the value the screen returned. -/
inductive HandlerEntry where
  | bound (call : List JSValue → Except Err JSValue)
  | value (v : JSValue)

/-- The two handler names `partialApplyId` is called with. -/
inductive HandlerName where
  | backHandler
  | submitHandler
  deriving DecidableEq, Repr

/-- The property lookup `screen[handlerName]`. -/
def Screen.handler {M : Type} (screen : Screen M) : HandlerName → M → HandlerValue
  | .backHandler => screen.backHandler
  | .submitHandler => screen.submitHandler

/-- The property bag `props` handed to `render` of `ui/box` (lines 74 to 99).
`closeHandler` is `none` for `undefined`, and a present handler is the call it
makes when invoked with an argument list. -/
structure Props (M : Type) where
  avatar : JSValue
  auxiliaryPane : JSValue
  autofocus : JSValue
  backHandler : HandlerEntry
  badgeLink : String
  closeHandler : Option (List JSValue → Dispatch)
  contentComponent : JSValue
  contentProps_model : M
  contentProps_t : String → Params → JSValue
  disableSubmitButton : Bool
  error : JSValue
  isMobile : JSValue
  isModal : JSValue
  isSubmitting : JSValue
  logo : JSValue
  primaryColor : JSValue
  screenName : String
  success : JSValue
  submitHandler : HandlerEntry
  tabs : JSValue
  terms : JSValue
  title : JSValue
  transitionName : String

/-- What the render observer does to the outside, in order: it asks the engine
for the screen of a snapshot (`engine.render(m)`), mounts a property bag
(`render` of `ui/box`), unmounts (`remove` of `ui/box`), emits an event
(`l.emitEvent`). -/
inductive Effect (M : Type) where
  | resolve (m : M)
  | mount (containerID : JSValue) (props : Props M)
  | unmount (containerID : JSValue)
  | emitEvent (m : M) (event : String)

/-- The result of one run of the render observer: the instance afterwards, the
effects in order, and the exception the run ended with, if any. -/
structure Outcome (M : Type) where
  self : Instance M
  effects : List (Effect M)
  thrown : Option Err

/-- The local function `partialApplyId` (lines 48 to 53): the screen's handler
with `l.id(m)` as its first argument, or the handler itself when it is falsy.  A
truthy value that is not a function gives a function whose call is a
`TypeError`. -/
def partialApplyId {M : Type} (l : Collaborators M) (m : M) (screen : Screen M)
    (handlerName : HandlerName) : HandlerEntry :=
  match screen.handler handlerName m with
  | .fn h => .bound (fun args => h (l.id m) args)
  | .other v =>
    if truthy v then .bound (fun _ => .error "TypeError: handler is not a function")
    else .value v

/-- The condition of line 103,
`!this.oldScreenName || this.oldScreenName != screen.name`. -/
def screenChanged (oldScreenName : Option String) (name : String) : Bool :=
  (match oldScreenName with
   | none => true
   | some s => !(truthy (.string s)))
  || (match oldScreenName with
      | none => true
      | some s => s != name)

/-- The callback registered with `observe("render", this.id, ...)` (lines 47 to
114), run on the snapshot `m`. -/
def renderObserver {M : Type} (l : Collaborators M) (self : Instance M) (m : M) :
    Outcome M :=
  let avatar := jsOr
    (jsAnd (l.ui_avatar m)
      (.boolean (l.getIn m ["avatar", "transient", "syncStatus"] == .string "ok")))
    .null
  let title :=
    if truthy avatar then
      l.ui_t m ["welcome"]
        [("name", l.getIn m ["avatar", "transient", "displayName"]),
         ("__textOnly", .boolean true)]
    else l.ui_t m ["title"] [("__textOnly", .boolean true)]
  if truthy (l.rendering m) then
    match self.engine.render m with
    | .error err => { self := self, effects := [.resolve m], thrown := some err }
    | .ok screen =>
      let disableSubmitButton :=
        screen.name == "main.signUp" && !(truthy (l.termsAccepted m))
      let t := fun (keyPath : String) (params : Params) => l.ui_t m [keyPath] params
      let props : Props M :=
        { avatar := jsAnd avatar (l.getIn m ["avatar", "transient", "url"])
          auxiliaryPane := screen.renderAuxiliaryPane m
          autofocus := l.ui_autofocus m
          backHandler := partialApplyId l m screen .backHandler
          badgeLink :=
            "https://auth0.com/?utm_source=lock&utm_campaign=badge&utm_medium=widget"
          closeHandler :=
            if truthy (l.ui_closable m) then some (fun args => .closeLock (l.id m) args)
            else none
          contentComponent := screen.render
          contentProps_model := m
          contentProps_t := t
          disableSubmitButton := disableSubmitButton
          error := l.globalError m
          isMobile := l.ui_mobile m
          isModal := l.ui_appendContainer m
          isSubmitting := l.submitting m
          logo := l.ui_logo m
          primaryColor := l.ui_primaryColor m
          screenName := screen.name
          success := l.globalSuccess m
          submitHandler := partialApplyId l m screen .submitHandler
          tabs := screen.renderTabs m
          terms := screen.renderTerms m t
          title := title
          transitionName := if screen.name == "loading" then "fade" else "horizontal-fade" }
      let ready : List (Effect M) :=
        if screenChanged self.oldScreenName screen.name then
          if screen.name == "login" then [.emitEvent m "signin ready"]
          else if screen.name == "signUp" then [.emitEvent m "signup ready"]
          else []
        else []
      { self := { self with oldScreenName := some screen.name }
        effects := [.resolve m, .mount (l.ui_containerID m) props] ++ ready
        thrown := none }
  else
    { self := self, effects := [.unmount (l.ui_containerID m)], thrown := none }

/-- The render observer run on the snapshots of successive publishes: the
instance after the last one and all effects in order.  A run that ends with an
exception does not prevent the next publish. -/
def renderAll {M : Type} (l : Collaborators M) :
    Instance M → List M → Instance M × List (Effect M)
  | self, [] => (self, [])
  | self, m :: ms =>
    let o := renderObserver l self m
    let r := renderAll l o.self ms
    (r.1, o.effects ++ r.2)

/-- The names of the events emitted, in order. -/
def events {M : Type} : List (Effect M) → List String
  | [] => []
  | .emitEvent _ event :: es => event :: events es
  | _ :: es => events es

/-- The property bag of the first mount among the effects. -/
def mounted {M : Type} : List (Effect M) → Option (Props M)
  | [] => none
  | .mount _ props :: _ => some props
  | _ :: es => mounted es

/-! ## Methods of `Base` -/

/-- The method `update(f)`: `updateLock(this.id, f)`. -/
def Base.update {M : Type} (w : World M) (self : Instance M) (f : M → M) : World M :=
  updateLock w self.id f

/-- The method `setModel(m)`: `this.update(() => m)`. -/
def Base.setModel {M : Type} (w : World M) (self : Instance M) (m : M) : World M :=
  Base.update w self (fun _ => m)

/-- The result of `runHook`: the calls of engine functions made (name, state
argument, further arguments) and the value returned or the exception thrown. -/
structure HookRun (M : Type) where
  invoked : List (String × Option M × List JSValue)
  result : Except Err JSValue

/-- The method `runHook(str, ...args)` (lines 149 to 152), called in the world
`w`. -/
def Base.runHook {M : Type} (w : World M) (self : Instance M) (str : String)
    (args : List JSValue) : HookRun M :=
  match self.engine.property str with
  | .other _ => { invoked := [], result := .ok .undefined }
  | .fn f =>
    let s := read w self.id
    { invoked := [(str, s, args)], result := f s args }

/-- The entry of the property bag for a handler name. -/
def Props.handler {M : Type} (props : Props M) : HandlerName → HandlerEntry
  | .backHandler => props.backHandler
  | .submitHandler => props.submitHandler

/-- Calling an entry of the property bag with an argument list: `none` when the
entry is not a function. -/
def HandlerEntry.invoke : HandlerEntry → List JSValue → Option (Except Err JSValue)
  | .bound call, args => some (call args)
  | .value _, _ => none

/-! ## The captcha pane -/

/-- The value of `core.captcha` in a lock: `provider` and `siteKey` may be
absent. -/
structure Captcha where
  provider : Option String
  siteKey : Option String
  required : Bool
  deriving DecidableEq, Repr

/-- The lock built by `createLockMock` of `captcha.test.jsx`. -/
structure LockMock where
  id : String
  captcha : Captcha
  deriving DecidableEq, Repr

/-- The function `createLockMock` of `captcha.test.jsx` (lines 9 to 15): an absent
field takes its default, `'auth0'`, `true`, `''`. -/
def createLockMock (provider : Option String) (required : Option Bool)
    (siteKey : Option String) : LockMock :=
  { id := "__lock-id__"
    captcha :=
      { provider := some (provider.getD "auth0")
        siteKey := some (siteKey.getD "")
        required := required.getD true } }

/-- The component the captcha pane renders: `ExtendedCaptcha` with its `sitekey`
property, or `CaptchaInput`. -/
inductive Variant where
  | extendedCaptcha (sitekey : Option String)
  | captchaInput
  deriving DecidableEq, Repr

/-- Modelled from the spec: the provider identifiers of the registry of the
selector, which `field/captcha/captcha_pane` (not among the sources) holds. -/
def registry : List String :=
  ["recaptcha_v2", "recaptcha_enterprise", "hcaptcha", "friendly_captcha"]

/-- Modelled from the spec: the provider selector `select(providerId, params)`.
`field/captcha/captcha_pane`, which `captcha.test.jsx` mounts, is not among the
sources.  A provider of the registry selects the extended variant, which
receives the site key; an absent, empty or unregistered provider selects
the default input. -/
def select (providerId : Option String) (siteKey : Option String) : Variant :=
  match providerId with
  | none => .captchaInput
  | some p => if p ∈ registry then .extendedCaptcha siteKey else .captchaInput

/-- Modelled from the spec: the component `CaptchaPane` applied to a lock, the
provider selector on `core.captcha` of the lock. -/
def CaptchaPane (lock : LockMock) : Variant :=
  select lock.captcha.provider lock.captcha.siteKey

/-! ## Readiness events, in the words of the specification -/

/-- What a publish on `"render"` is for an instance: the instance is hidden, or
it is visible and the engine resolves the screen of that name, or it is visible
and the resolver throws. -/
inductive Publish where
  | hidden
  | rendered (name : String)
  | failed
  deriving DecidableEq, Repr

/-- The kind of publish the snapshot `m` is. -/
def classify {M : Type} (l : Collaborators M) (engine : Engine M) (m : M) : Publish :=
  if truthy (l.rendering m) then
    match engine.render m with
    | .ok screen => .rendered screen.name
    | .error _ => .failed
  else .hidden

/-- The events the specification asks for at a visible render of the screen
`name` when the previously rendered screen name is `previous`: `"signin ready"`
when the name is `"login"` and the previous name is absent or different,
`"signup ready"` under the same condition for `"signUp"`. -/
def readyEvents (previous : Option String) (name : String) : List String :=
  (if name = "login" ∧ (previous = none ∨ previous ≠ some name) then ["signin ready"]
   else [])
  ++ (if name = "signUp" ∧ (previous = none ∨ previous ≠ some name) then ["signup ready"]
      else [])

/-- The events the specification asks for over a sequence of publishes, where
the previously rendered screen name is the name at the most recent visible
render. -/
def expectedEvents : Option String → List Publish → List String
  | _, [] => []
  | previous, .rendered name :: ps => readyEvents previous name ++ expectedEvents (some name) ps
  | previous, .hidden :: ps => expectedEvents previous ps
  | previous, .failed :: ps => expectedEvents previous ps

/-! ## A concrete lock, for evaluation -/

/-- A small state tree: the fields the collaborators below read. -/
structure Tree where
  id : Id
  visible : Bool
  closable : Bool
  screen : String
  deriving DecidableEq, Repr

/-- Collaborators reading a `Tree`. -/
def treeCollaborators : Collaborators Tree where
  id := fun m => m.id
  rendering := fun m => .boolean m.visible
  globalError := fun _ => .undefined
  globalSuccess := fun _ => .undefined
  submitting := fun _ => .boolean false
  ui_avatar := fun _ => .undefined
  ui_t := fun _ keyPath _ => .array (String.intercalate "." keyPath)
  ui_autofocus := fun _ => .boolean false
  ui_closable := fun m => .boolean m.closable
  ui_mobile := fun _ => .boolean false
  ui_appendContainer := fun _ => .boolean true
  ui_logo := fun _ => .undefined
  ui_primaryColor := fun _ => .undefined
  ui_containerID := fun m => .number m.id
  getIn := fun _ _ => .undefined
  termsAccepted := fun _ => .boolean true

/-- A handler that answers with the id it is called with. -/
def echoId : Id → List JSValue → Except Err JSValue :=
  fun id _ => .ok (.number id)

/-- A screen with a back handler and without a submit handler. -/
def treeScreen (name : String) : Screen Tree where
  name := name
  render := .function name
  renderAuxiliaryPane := fun _ => .null
  renderTabs := fun _ => .null
  renderTerms := fun _ _ => .null
  backHandler := fun _ => .fn echoId
  submitHandler := fun _ => .other .undefined

/-- A hook that answers with the id of the tree it is called with. -/
def echoTree : Option Tree → List JSValue → Except Err JSValue :=
  fun s _ => .ok (match s with
    | some m => .number m.id
    | none => .undefined)

/-- An engine whose resolver throws on the screen name `"broken"`, with one hook,
`"ready"`. -/
def treeEngine : Engine Tree where
  render := fun m =>
    if m.screen == "broken" then .error "no such screen" else .ok (treeScreen m.screen)
  property := fun str =>
    if str == "ready" then .fn echoTree
    else if str == "version" then .other (.string "10")
    else .other .undefined

/-- Actions that record their call; `setupLock` stores a hidden tree for the id. -/
def treeActions : Actions Tree where
  go := fun id w => ({ w with calls := w.calls ++ [.go id] }, none)
  setupLock := fun id clientID domain options logInCallback w =>
    ({ w with
        calls := w.calls ++ [.setupLock id clientID domain options logInCallback]
        store := w.store ++
          [(id, { id := id, visible := false, closable := true, screen := "loading" })] },
     none)

/-- The world before any instance exists. -/
def emptyWorld : World Tree :=
  { counter := 0, store := [], observers := [], calls := [] }

/-- The world with the tree of instance `0` stored. -/
def oneLockWorld : World Tree :=
  { counter := 1
    store := [(0, { id := 0, visible := false, closable := true, screen := "loading" })]
    observers := [("render", 0)]
    calls := [] }

/-- The instance with id `0`, before its first render. -/
def lockZero : Instance Tree :=
  { id := 0, engine := treeEngine, oldScreenName := none }

/-- A visible tree showing `screen`, carrying the id `id`. -/
def shown (id : Id) (screen : String) : Tree :=
  { id := id, visible := true, closable := true, screen := screen }

/-! ## Lemmas on the model -/

theorem find?_map_update {M : Type} (id : Id) (f : M → M) (es : List (Id × M)) :
    ((es.map (fun e => if e.1 == id then (e.1, f e.2) else e)).find?
        (fun e => e.1 == id)).map (fun e => e.2)
      = ((es.find? (fun e => e.1 == id)).map (fun e => e.2)).map f := by
  induction es with
  | nil => rfl
  | cons e es ih =>
    by_cases h : e.1 = id
    · simp [List.find?, h]
    · have hb : (e.1 == id) = false := by simpa using h
      simp only [List.map_cons, hb, List.find?, Bool.false_eq_true, if_false]
      exact ih

theorem read_updateLock {M : Type} (w : World M) (id : Id) (f : M → M) :
    read (updateLock w id f) id = (read w id).map f :=
  find?_map_update id f w.store

theorem screenChanged_iff (oldScreenName : Option String) (name : String)
    (hname : name ≠ "") :
    screenChanged oldScreenName name = true ↔
      (oldScreenName = none ∨ oldScreenName ≠ some name) := by
  cases oldScreenName with
  | none => simp [screenChanged]
  | some s =>
    by_cases h : s = name
    · subst h
      simp [screenChanged, truthy, hname]
    · simp [screenChanged, h]

/-! ## The constructor: validation -/

theorem validate_eq_none_iff (clientID domain options logInCallback : JSValue) :
    validate clientID domain options logInCallback = none ↔
      (typeof clientID = "string" ∧ typeof domain = "string" ∧ typeof options = "object"
        ∧ typeof logInCallback = "function") := by
  unfold validate
  by_cases h1 : typeof clientID = "string" <;> by_cases h2 : typeof domain = "string" <;>
    by_cases h3 : typeof options = "object" <;>
    by_cases h4 : typeof logInCallback = "function" <;> simp [h1, h2, h3, h4]

theorem validate_defaults (clientID domain : JSValue)
    (h1 : typeof clientID = "string") (h2 : typeof domain = "string") :
    validate clientID domain (withDefault .undefined (.object "\x7b\x7d"))
      (withDefault .undefined (.function "() => \x7b\x7d")) = none := by
  exact (validate_eq_none_iff _ _ _ _).mpr ⟨h1, h2, rfl, rfl⟩

/-- Claim C1, at the input `new Base("cid", "example.auth0.com", null, cb, engine)`:
the check of `options` lets `null` pass, since `typeof null` is `"object"`; the
constructor goes on, allocates the id `0`, calls `go` and `setupLock` with
`null` as options, registers the render observer and returns the instance. -/
theorem constructor_accepts_null_options :
    validate (.string "cid") (.string "example.auth0.com") .null (.function "cb") = none
    ∧ (Base.constructor treeActions emptyWorld (.string "cid")
        (.string "example.auth0.com") .null (.function "cb") treeEngine).2.toOption.map
          Instance.id = some 0
    ∧ (Base.constructor treeActions emptyWorld (.string "cid")
        (.string "example.auth0.com") .null (.function "cb") treeEngine).1.calls
        = [.go 0, .setupLock 0 (.string "cid") (.string "example.auth0.com") .null
            (.function "cb")]
    ∧ (Base.constructor treeActions emptyWorld (.string "cid")
        (.string "example.auth0.com") .null (.function "cb") treeEngine).1.observers
        = [("render", 0)] := by
  refine ⟨by decide, by rfl, by rfl, by rfl⟩

/-- Claim C2: a constructor call whose arguments fail validation returns the
world it was called in, unchanged in counter, store, observers and recorded
calls, whatever `go` and `setupLock` would do, and throws the error of the first
failing check. -/
theorem constructor_validation_failure_has_no_effect {M : Type} (A : Actions M)
    (w : World M) (clientID domain options logInCallback : JSValue) (engine : Engine M)
    (err : Err)
    (h : validate clientID domain (withDefault options (.object "\x7b\x7d"))
      (withDefault logInCallback (.function "() => \x7b\x7d")) = some err) :
    Base.constructor A w clientID domain options logInCallback engine = (w, .error err) := by
  unfold Base.constructor
  simp only [h]

/-- Claim C2 at `new Base(42, "example.auth0.com")` in the world holding one lock. -/
theorem constructor_validation_failure_has_no_effect_witness :
    validate (.number 42) (.string "example.auth0.com")
      (withDefault .undefined (.object "\x7b\x7d"))
      (withDefault .undefined (.function "() => \x7b\x7d"))
      = some "A `clientID` string must be provided as first argument."
    ∧ Base.constructor treeActions oneLockWorld (.number 42) (.string "example.auth0.com")
        .undefined .undefined treeEngine
      = (oneLockWorld, .error "A `clientID` string must be provided as first argument.") :=
  ⟨by decide,
   constructor_validation_failure_has_no_effect treeActions oneLockWorld (.number 42)
     (.string "example.auth0.com") .undefined .undefined treeEngine _ (by decide)⟩

/-! ## The render observer: readiness events -/

theorem events_append {M : Type} (xs ys : List (Effect M)) :
    events (xs ++ ys) = events xs ++ events ys := by
  induction xs with
  | nil => rfl
  | cons x xs ih => cases x <;> simp [events, ih]

theorem renderObserver_engine {M : Type} (l : Collaborators M) (self : Instance M) (m : M) :
    (renderObserver l self m).self.engine = self.engine := by
  unfold renderObserver
  by_cases hv : truthy (l.rendering m) = true
  · cases hr : self.engine.render m with
    | error err => simp only [hv, if_true]
    | ok screen => simp only [hv, if_true]
  · simp only [hv, if_false, Bool.false_eq_true]

theorem renderObserver_oldScreenName {M : Type} (l : Collaborators M) (self : Instance M)
    (m : M) :
    (renderObserver l self m).self.oldScreenName =
      match classify l self.engine m with
      | .rendered name => some name
      | _ => self.oldScreenName := by
  unfold renderObserver classify
  by_cases hv : truthy (l.rendering m) = true
  · cases hr : self.engine.render m with
    | error err => simp only [hv, if_true]
    | ok screen => simp only [hv, if_true]
  · simp only [hv, if_false, Bool.false_eq_true]

theorem ready_events_eq (M : Type) (m : M) (previous : Option String) (name : String) :
    events (if screenChanged previous name then
        if name == "login" then [Effect.emitEvent m "signin ready"]
        else if name == "signUp" then [Effect.emitEvent m "signup ready"]
        else []
      else []) = readyEvents previous name := by
  by_cases h1 : name = "login"
  · subst h1
    have hc := screenChanged_iff previous "login" (by decide)
    by_cases hp : previous = none ∨ previous ≠ some "login"
    · have : screenChanged previous "login" = true := hc.mpr hp
      simp [readyEvents, this, hp, events]
    · have : screenChanged previous "login" = false := by
        cases hs : screenChanged previous "login"
        · rfl
        · exact absurd (hc.mp hs) hp
      simp [readyEvents, this, hp, events]
  · by_cases h2 : name = "signUp"
    · subst h2
      have hc := screenChanged_iff previous "signUp" (by decide)
      by_cases hp : previous = none ∨ previous ≠ some "signUp"
      · have : screenChanged previous "signUp" = true := hc.mpr hp
        simp [readyEvents, this, hp, events]
      · have : screenChanged previous "signUp" = false := by
          cases hs : screenChanged previous "signUp"
          · rfl
          · exact absurd (hc.mp hs) hp
        simp [readyEvents, this, hp, events]
    · cases screenChanged previous name <;> simp [readyEvents, h1, h2, events]

theorem renderObserver_events {M : Type} (l : Collaborators M) (self : Instance M) (m : M) :
    events (renderObserver l self m).effects =
      match classify l self.engine m with
      | .rendered name => readyEvents self.oldScreenName name
      | _ => [] := by
  unfold renderObserver classify
  by_cases hv : truthy (l.rendering m) = true
  · cases hr : self.engine.render m with
    | error err => simp only [hv, if_true, events]
    | ok screen =>
      simp only [hv, if_true, events_append, events, List.nil_append]
      exact ready_events_eq M m self.oldScreenName screen.name
  · simp only [hv, if_false, Bool.false_eq_true, events]

theorem renderAll_events {M : Type} (l : Collaborators M) (ms : List M) :
    ∀ self : Instance M,
      events (renderAll l self ms).2 =
        expectedEvents self.oldScreenName (ms.map (classify l self.engine)) := by
  induction ms with
  | nil => intro self; rfl
  | cons m ms ih =>
    intro self
    have he := renderObserver_events l self m
    have ho := renderObserver_oldScreenName l self m
    have hg := renderObserver_engine l self m
    simp only [renderAll, events_append, List.map_cons, ih, hg]
    cases hc : classify l self.engine m with
    | hidden => simp only [hc] at he ho; simp [expectedEvents, he, ho]
    | failed => simp only [hc] at he ho; simp [expectedEvents, he, ho]
    | rendered name => simp only [hc] at he ho; simp [expectedEvents, he, ho]

theorem expectedEvents_same_screen (name : String) (ps : List Publish)
    (h : ∀ p ∈ ps, p = .rendered name) :
    expectedEvents (some name) ps = [] := by
  induction ps with
  | nil => rfl
  | cons p ps ih =>
    have hp : p = .rendered name := h p (List.mem_cons_self _ _)
    subst hp
    have ht := ih (fun q hq => h q (List.mem_cons_of_mem _ hq))
    simp [expectedEvents, readyEvents, ht]

theorem readyEvents_length (previous : Option String) (name : String) :
    (readyEvents previous name).length ≤ 1 := by
  unfold readyEvents
  by_cases h1 : name = "login"
  · subst h1
    split <;> simp
  · simp [h1]
    split <;> simp

/-- Claim C3: over every sequence of publishes on the render channel of an
instance, the events the render observer emits are those the specification asks
for: `"signin ready"` at a visible render that resolves the screen `"login"` when
the name of the most recent visible render is absent or different,
`"signup ready"` likewise for the screen `"signUp"`, and nothing at any other
render.  The renders loading, login, login emit exactly one `"signin ready"`, and
renders that all resolve the same screen emit at most one event. -/
theorem render_emits_ready_once_per_transition {M : Type} (l : Collaborators M) :
    (∀ (self : Instance M) (ms : List M),
      events (renderAll l self ms).2 =
        expectedEvents self.oldScreenName (ms.map (classify l self.engine)))
    ∧ (∀ (self : Instance M) (m1 m2 m3 : M),
        classify l self.engine m1 = .rendered "loading" →
        classify l self.engine m2 = .rendered "login" →
        classify l self.engine m3 = .rendered "login" →
        events (renderAll l self [m1, m2, m3]).2 = ["signin ready"])
    ∧ (∀ (self : Instance M) (name : String) (ms : List M),
        (∀ m ∈ ms, classify l self.engine m = .rendered name) →
        (events (renderAll l self ms).2).length ≤ 1) := by
  refine ⟨fun self ms => renderAll_events l ms self, ?_, ?_⟩
  · intro self m1 m2 m3 h1 h2 h3
    rw [renderAll_events]
    simp [h1, h2, h3, expectedEvents, readyEvents]
  · intro self name ms h
    rw [renderAll_events]
    cases ms with
    | nil => simp [expectedEvents]
    | cons m ms =>
      have hm : classify l self.engine m = .rendered name := h m (List.mem_cons_self _ _)
      have hrest : ∀ p ∈ ms.map (classify l self.engine), p = Publish.rendered name := by
        intro p hp
        obtain ⟨x, hx, rfl⟩ := List.mem_map.mp hp
        exact h x (List.mem_cons_of_mem _ hx)
      simp only [List.map_cons, hm, expectedEvents,
        expectedEvents_same_screen name _ hrest, List.append_nil]
      exact readyEvents_length _ _

/-- Claim C3 on the concrete lock: rendered on loading, login, login, it emits
`"signin ready"` once. -/
theorem render_emits_ready_once_per_transition_witness :
    classify treeCollaborators lockZero.engine (shown 0 "loading") = .rendered "loading"
    ∧ classify treeCollaborators lockZero.engine (shown 0 "login") = .rendered "login"
    ∧ events (renderAll treeCollaborators lockZero
        [shown 0 "loading", shown 0 "login", shown 0 "login"]).2 = ["signin ready"] :=
  ⟨by decide, by decide,
   (render_emits_ready_once_per_transition treeCollaborators).2.1 lockZero
     (shown 0 "loading") (shown 0 "login") (shown 0 "login")
     (by decide) (by decide) (by decide)⟩

/-! ## The hook runner -/

/-- Claim C4: when `engine[str]` is not a function, `runHook` returns `undefined`
and calls nothing; when it is the function `f`, `runHook` makes the one call
`f(s, ...args)` and returns its result (or throws what it throws), where `s` is
the tree the store holds for the id of the instance in the world of the call: a
tree installed by `setModel` before the call is the one the hook receives. -/
theorem runHook_calls_engine_function_with_current_state {M : Type} (w : World M)
    (self : Instance M) (str : String) (args : List JSValue) :
    (∀ v, self.engine.property str = .other v →
      Base.runHook w self str args = { invoked := [], result := .ok .undefined })
    ∧ (∀ f, self.engine.property str = .fn f →
      Base.runHook w self str args =
        { invoked := [(str, read w self.id, args)], result := f (read w self.id) args })
    ∧ (∀ f (m0 m : M), self.engine.property str = .fn f → read w self.id = some m0 →
      Base.runHook (Base.setModel w self m) self str args =
        { invoked := [(str, some m, args)], result := f (some m) args }) := by
  refine ⟨?_, ?_, ?_⟩
  · intro v hv
    simp only [Base.runHook, hv]
  · intro f hf
    simp only [Base.runHook, hf]
  · intro f m0 m hf h0
    have hr : read (Base.setModel w self m) self.id = some m := by
      simp only [Base.setModel, Base.update, read_updateLock, h0, Option.map_some']
    simp only [Base.runHook, hf, hr]

/-- Claim C4 on the concrete lock: the hook `"ready"` receives the tree installed
just before the call. -/
theorem runHook_calls_engine_function_with_current_state_witness :
    read oneLockWorld lockZero.id
      = some { id := 0, visible := false, closable := true, screen := "loading" }
    ∧ Base.runHook (Base.setModel oneLockWorld lockZero (shown 0 "login")) lockZero "ready"
        [.number 1]
      = { invoked := [("ready", some (shown 0 "login"), [.number 1])]
          result := echoTree (some (shown 0 "login")) [.number 1] } :=
  ⟨by decide,
   (runHook_calls_engine_function_with_current_state oneLockWorld lockZero "ready"
      [.number 1]).2.2 echoTree
      { id := 0, visible := false, closable := true, screen := "loading" }
      (shown 0 "login") rfl (by decide)⟩

/-! ## The captcha pane -/

/-- Claim C5: the captcha pane resolves `core.captcha` to one variant: for the
providers `recaptcha_v2`, `recaptcha_enterprise`, `hcaptcha` and
`friendly_captcha` the extended captcha, which receives the configured site
key; for every other provider, absent or empty included, the plain captcha
input, whatever the site key.  The locks of `captcha.test.jsx` resolve as the
tests expect. -/
theorem captcha_pane_selects_variant (id : String) (captcha : Captcha) :
    (∀ p, captcha.provider = some p →
        (p = "recaptcha_v2" ∨ p = "recaptcha_enterprise" ∨ p = "hcaptcha"
          ∨ p = "friendly_captcha") →
        CaptchaPane { id := id, captcha := captcha } = .extendedCaptcha captcha.siteKey)
    ∧ (∀ p, captcha.provider = some p →
        ¬ (p = "recaptcha_v2" ∨ p = "recaptcha_enterprise" ∨ p = "hcaptcha"
          ∨ p = "friendly_captcha") →
        CaptchaPane { id := id, captcha := captcha } = .captchaInput)
    ∧ (captcha.provider = none →
        CaptchaPane { id := id, captcha := captcha } = .captchaInput)
    ∧ CaptchaPane (createLockMock none none none) = .captchaInput
    ∧ CaptchaPane (createLockMock (some "auth0") none (some "")) = .captchaInput
    ∧ CaptchaPane (createLockMock (some "recaptcha_v2") none (some "mySiteKey"))
        = .extendedCaptcha (some "mySiteKey")
    ∧ CaptchaPane (createLockMock (some "friendly_captcha") none (some "mySiteKey"))
        = .extendedCaptcha (some "mySiteKey")
    ∧ CaptchaPane (createLockMock (some "hcaptcha") none (some "mySiteKey"))
        = .extendedCaptcha (some "mySiteKey")
    ∧ CaptchaPane (createLockMock (some "recaptcha_enterprise") none (some "mySiteKey"))
        = .extendedCaptcha (some "mySiteKey") := by
  refine ⟨?_, ?_, ?_, by decide, by decide, by decide, by decide, by decide, by decide⟩
  · intro p hp hreg
    have hmem : p ∈ registry := by simpa [registry] using hreg
    simp [CaptchaPane, select, hp, hmem]
  · intro p hp hreg
    have hmem : p ∉ registry := by simpa [registry] using hreg
    simp [CaptchaPane, select, hp, hmem]
  · intro hp
    simp [CaptchaPane, select, hp]

/-- Claim C5 at `core.captcha = {provider: "hcaptcha", siteKey: "mySiteKey",
required: true}`. -/
theorem captcha_pane_selects_variant_witness :
    CaptchaPane
      { id := "__lock-id__"
        captcha := { provider := some "hcaptcha", siteKey := some "mySiteKey",
                     required := true } }
      = .extendedCaptcha (some "mySiteKey") :=
  (captcha_pane_selects_variant "__lock-id__"
    { provider := some "hcaptcha", siteKey := some "mySiteKey", required := true }).1
    "hcaptcha" rfl (by decide)

/-! ## The render observer: hidden lock, failing resolver -/

/-- Claim C6: on a snapshot for which `l.rendering(m)` is falsy the render
observer makes one call, `remove` for the container id of the snapshot, and
nothing else: the engine is not asked for a screen, nothing is mounted, no event
is emitted, the instance (with its remembered screen name) is unchanged, and the
run ends normally. -/
theorem hidden_render_only_unmounts {M : Type} (l : Collaborators M) (self : Instance M)
    (m : M) (h : truthy (l.rendering m) = false) :
    renderObserver l self m =
      { self := self, effects := [.unmount (l.ui_containerID m)], thrown := none } := by
  unfold renderObserver
  simp only [h, if_false, Bool.false_eq_true]

/-- Claim C6 on the concrete lock, hidden after a render of the login screen. -/
theorem hidden_render_only_unmounts_witness :
    truthy (treeCollaborators.rendering
      { id := 0, visible := false, closable := true, screen := "login" }) = false
    ∧ renderObserver treeCollaborators { lockZero with oldScreenName := some "login" }
        { id := 0, visible := false, closable := true, screen := "login" }
      = { self := { lockZero with oldScreenName := some "login" }
          effects := [.unmount (.number 0)]
          thrown := none } :=
  ⟨by decide,
   hidden_render_only_unmounts treeCollaborators { lockZero with oldScreenName := some "login" }
     { id := 0, visible := false, closable := true, screen := "login" } (by decide)⟩

/-- Claim C7: on a visible snapshot on which `engine.render` throws, the render
observer has asked the engine and done nothing more: nothing is mounted or
unmounted, no event is emitted, the instance (with its remembered screen name) is
unchanged, and every later sequence of renders runs as it would have without the
failed one.  The observer has no access to the store. -/
theorem resolver_failure_changes_nothing {M : Type} (l : Collaborators M)
    (self : Instance M) (m : M) (err : Err)
    (hv : truthy (l.rendering m) = true) (he : self.engine.render m = .error err) :
    (renderObserver l self m).self = self
    ∧ (renderObserver l self m).effects = [.resolve m]
    ∧ mounted (renderObserver l self m).effects = none
    ∧ events (renderObserver l self m).effects = []
    ∧ (∀ ms, renderAll l (renderObserver l self m).self ms = renderAll l self ms) := by
  have h : renderObserver l self m =
      { self := self, effects := [.resolve m], thrown := some err } := by
    unfold renderObserver
    simp only [hv, he, if_true]
  simp only [h, mounted, events, implies_true, and_self]

/-- Claim C7 on the concrete lock, whose resolver throws on the screen
`"broken"`, after a render of the login screen. -/
theorem resolver_failure_changes_nothing_witness :
    truthy (treeCollaborators.rendering (shown 0 "broken")) = true
    ∧ (renderObserver treeCollaborators { lockZero with oldScreenName := some "login" }
        (shown 0 "broken")).self = { lockZero with oldScreenName := some "login" }
    ∧ (renderObserver treeCollaborators { lockZero with oldScreenName := some "login" }
        (shown 0 "broken")).effects = [.resolve (shown 0 "broken")]
    ∧ mounted (renderObserver treeCollaborators { lockZero with oldScreenName := some "login" }
        (shown 0 "broken")).effects = none
    ∧ events (renderObserver treeCollaborators { lockZero with oldScreenName := some "login" }
        (shown 0 "broken")).effects = []
    ∧ (∀ ms, renderAll treeCollaborators
          (renderObserver treeCollaborators { lockZero with oldScreenName := some "login" }
            (shown 0 "broken")).self ms
        = renderAll treeCollaborators { lockZero with oldScreenName := some "login" } ms) :=
  ⟨by decide,
   resolver_failure_changes_nothing treeCollaborators
     { lockZero with oldScreenName := some "login" } (shown 0 "broken") "no such screen"
     (by decide) rfl⟩

/-- Claim C8, as amended: on a visible snapshot on which `engine.render` throws,
the render observer catches nothing: its run ends with the exception of the
resolver, which is thus handed to the caller of the observer. -/
theorem resolver_failure_propagates {M : Type} (l : Collaborators M) (self : Instance M)
    (m : M) (err : Err)
    (hv : truthy (l.rendering m) = true) (he : self.engine.render m = .error err) :
    (renderObserver l self m).thrown = some err := by
  unfold renderObserver
  simp only [hv, he, if_true]

/-- Claim C8 as amended, on the concrete lock after a render of the login screen. -/
theorem resolver_failure_propagates_witness :
    truthy (treeCollaborators.rendering (shown 0 "broken")) = true
    ∧ (renderObserver treeCollaborators { lockZero with oldScreenName := some "login" }
        (shown 0 "broken")).thrown = some "no such screen" :=
  ⟨by decide,
   resolver_failure_propagates treeCollaborators
     { lockZero with oldScreenName := some "login" } (shown 0 "broken") "no such screen"
     (by decide) rfl⟩

/-- Claim C8 fails: the first render of the concrete lock, visible, on the screen
`"broken"`, on which the resolver throws, does not end normally. -/
theorem resolver_failure_not_caught :
    truthy (treeCollaborators.rendering (shown 0 "broken")) = true
    ∧ (lockZero.engine.render (shown 0 "broken")).toBool = false
    ∧ (renderObserver treeCollaborators lockZero (shown 0 "broken")).thrown ≠ none := by
  refine ⟨by decide, by rfl, by decide⟩

/-! ## The render observer: handlers of the property bag -/

theorem renderObserver_mounted {M : Type} (l : Collaborators M) (self : Instance M)
    (m : M) (screen : Screen M)
    (hv : truthy (l.rendering m) = true) (hs : self.engine.render m = .ok screen) :
    ∃ props, mounted (renderObserver l self m).effects = some props
      ∧ props.backHandler = partialApplyId l m screen .backHandler
      ∧ props.submitHandler = partialApplyId l m screen .submitHandler
      ∧ props.closeHandler =
          (if truthy (l.ui_closable m) then some (fun args => .closeLock (l.id m) args)
           else none)
      ∧ props.screenName = screen.name := by
  unfold renderObserver
  simp only [hv, hs, if_true, List.cons_append, mounted]
  exact ⟨_, rfl, rfl, rfl, rfl, rfl⟩

/-- Claim C9, as amended: at a visible render of the snapshot `m` the property bag
is mounted, and for `backHandler` and `submitHandler` alike: when the screen
supplies the handler `h`, the entry is a function that, called with `args`,
calls `h(l.id(m), ...args)`, with the id read from the snapshot, and returns its
result; when the screen returns a falsy value, the entry is that value.  When the
snapshot carries the id of the instance, `h` is called with that id. -/
theorem handlers_receive_snapshot_id {M : Type} (l : Collaborators M) (self : Instance M)
    (m : M) (screen : Screen M) (handlerName : HandlerName)
    (hv : truthy (l.rendering m) = true) (hs : self.engine.render m = .ok screen) :
    ∃ props, mounted (renderObserver l self m).effects = some props
      ∧ (∀ h, screen.handler handlerName m = .fn h →
          ∀ args, (props.handler handlerName).invoke args = some (h (l.id m) args))
      ∧ (∀ v, screen.handler handlerName m = .other v → truthy v = false →
          props.handler handlerName = .value v)
      ∧ (l.id m = self.id → ∀ h, screen.handler handlerName m = .fn h →
          ∀ args, (props.handler handlerName).invoke args = some (h self.id args)) := by
  have hp : ∀ h, screen.handler handlerName m = .fn h →
      ∀ args, (partialApplyId l m screen handlerName).invoke args = some (h (l.id m) args) := by
    intro h hh args
    simp only [partialApplyId, hh, HandlerEntry.invoke]
  have hq : ∀ v, screen.handler handlerName m = .other v → truthy v = false →
      partialApplyId l m screen handlerName = .value v := by
    intro v hh hf
    simp only [partialApplyId, hh, hf, if_false, Bool.false_eq_true]
  obtain ⟨props, hm, hb, hsub, _, _⟩ := renderObserver_mounted l self m screen hv hs
  have he : props.handler handlerName = partialApplyId l m screen handlerName := by
    cases handlerName
    · exact hb
    · exact hsub
  refine ⟨props, hm, ?_, ?_, ?_⟩
  · rw [he]; exact hp
  · rw [he]; exact hq
  · intro hid
    rw [← hid, he]
    exact hp

/-- Claim C9 as amended, on the concrete lock rendering its own tree. -/
theorem handlers_receive_snapshot_id_witness :
    truthy (treeCollaborators.rendering (shown 0 "signUp")) = true
    ∧ ∃ props,
      mounted (renderObserver treeCollaborators lockZero (shown 0 "signUp")).effects
        = some props
      ∧ (∀ h, (treeScreen "signUp").handler .backHandler (shown 0 "signUp") = .fn h →
          ∀ args, (props.handler .backHandler).invoke args
            = some (h (treeCollaborators.id (shown 0 "signUp")) args))
      ∧ (∀ v, (treeScreen "signUp").handler .backHandler (shown 0 "signUp") = .other v →
          truthy v = false → props.handler .backHandler = .value v)
      ∧ (treeCollaborators.id (shown 0 "signUp") = lockZero.id →
          ∀ h, (treeScreen "signUp").handler .backHandler (shown 0 "signUp") = .fn h →
          ∀ args, (props.handler .backHandler).invoke args = some (h lockZero.id args)) :=
  ⟨by decide,
   handlers_receive_snapshot_id treeCollaborators lockZero (shown 0 "signUp")
     (treeScreen "signUp") .backHandler (by decide) rfl⟩

/-- Claim C9 fails: `setModel` installs for the instance `0` a tree that carries
the id `7`; at the render of that tree the back handler of the property bag
calls the handler of the screen with `7`, not with the id of the instance. -/
theorem backHandler_receives_foreign_id :
    read (Base.setModel oneLockWorld lockZero (shown 7 "login")) lockZero.id
      = some (shown 7 "login")
    ∧ (treeScreen "login").handler .backHandler (shown 7 "login") = .fn echoId
    ∧ (mounted (renderObserver treeCollaborators lockZero (shown 7 "login")).effects).bind
        (fun props => props.backHandler.invoke [.string "back"])
      = some (.ok (.number 7))
    ∧ echoId lockZero.id [.string "back"] = .ok (.number 0) := by
  refine ⟨by decide, rfl, by rfl, by rfl⟩

/-- Claim C10, as amended: at a visible render of the snapshot `m` the property
bag is mounted; its `closeHandler` is present exactly when `l.ui.closable(m)` is
truthy, and a present handler, called with `args`, calls
`closeLock(l.id(m), ...args)`, with the id read from the snapshot.  When the
snapshot carries the id of the instance, that is the close of this instance. -/
theorem closeHandler_closes_snapshot_id {M : Type} (l : Collaborators M) (self : Instance M)
    (m : M) (screen : Screen M)
    (hv : truthy (l.rendering m) = true) (hs : self.engine.render m = .ok screen) :
    ∃ props, mounted (renderObserver l self m).effects = some props
      ∧ props.closeHandler.isSome = truthy (l.ui_closable m)
      ∧ (∀ close, props.closeHandler = some close →
          ∀ args, close args = .closeLock (l.id m) args)
      ∧ (l.id m = self.id → ∀ close, props.closeHandler = some close →
          ∀ args, close args = .closeLock self.id args) := by
  have hc : ∀ close,
      (if truthy (l.ui_closable m) = true
        then some (fun args => Dispatch.closeLock (l.id m) args) else none) = some close →
      ∀ args, close args = .closeLock (l.id m) args := by
    intro close h args
    by_cases hcl : truthy (l.ui_closable m) = true
    · simp only [hcl, if_true, Option.some.injEq] at h
      rw [← h]
    · simp only [hcl, if_false, Bool.false_eq_true] at h
      exact absurd h (by simp)
  obtain ⟨props, hm, _, _, hclose, _⟩ := renderObserver_mounted l self m screen hv hs
  refine ⟨props, hm, ?_, ?_, ?_⟩
  · rw [hclose]
    by_cases hcl : truthy (l.ui_closable m) = true
    · simp only [hcl, if_true, Option.isSome_some]
    · have hf : truthy (l.ui_closable m) = false := by simpa using hcl
      simp only [hf, if_false, Bool.false_eq_true, Option.isSome_none]
  · rw [hclose]; exact hc
  · intro hid
    rw [← hid, hclose]
    exact hc

/-- Claim C10 as amended, on the concrete lock rendering its own tree. -/
theorem closeHandler_closes_snapshot_id_witness :
    truthy (treeCollaborators.rendering (shown 0 "login")) = true
    ∧ ∃ props,
      mounted (renderObserver treeCollaborators lockZero (shown 0 "login")).effects
        = some props
      ∧ props.closeHandler.isSome = truthy (treeCollaborators.ui_closable (shown 0 "login"))
      ∧ (∀ close, props.closeHandler = some close →
          ∀ args, close args = .closeLock (treeCollaborators.id (shown 0 "login")) args)
      ∧ (treeCollaborators.id (shown 0 "login") = lockZero.id →
          ∀ close, props.closeHandler = some close →
          ∀ args, close args = .closeLock lockZero.id args) :=
  ⟨by decide,
   closeHandler_closes_snapshot_id treeCollaborators lockZero (shown 0 "login")
     (treeScreen "login") (by decide) rfl⟩

/-- Claim C10 fails: at the render of a closable tree that carries the id `7`,
installed for the instance `0` by `setModel`, the close handler of the property
bag calls `closeLock(7)`, not the close of the instance `0`. -/
theorem closeHandler_closes_foreign_id :
    read (Base.setModel oneLockWorld lockZero (shown 7 "loading")) lockZero.id
      = some (shown 7 "loading")
    ∧ (mounted (renderObserver treeCollaborators lockZero (shown 7 "loading")).effects).bind
        (fun props => props.closeHandler.map (fun close => close []))
      = some (.closeLock 7 [])
    ∧ lockZero.id = 0 := by
  refine ⟨by decide, by rfl, rfl⟩

end Lock
